import Mathlib

/-!
Verification of the gobank funds-transfer engine.

Shallow embedding of the repository, translated from the source:
- storage.go: createAccountTable, lockAccount, TransferFunds
  (a single database transaction, sequential semantics; any error path
  triggers the deferred rollback, so the committed state is either the
  fully updated bank or the original bank);
- api.go: handleTransfer (the source iban comes from the token claims,
  the destination iban and the amount from the request body);
- types.go: TransferRequest, Claims.

Monetary values are Go float64 in the source; every finite float64 value
is a rational number, so balances and amounts are embedded as exact
rationals.  Rounding of float64 addition and subtraction is outside this
embedding, so the embedding only supports conclusions that do not depend
on it: control flow (every comparison of two float64 values is exact),
which rows are written, and evaluations at inputs where the float64
arithmetic is exact.  Where a conclusion would depend on rounding, the
development instead exhibits the exactly computed value and proves it is
not an integer — every binary64 value of magnitude between 2 ^ 52 and
2 ^ 53 is an integer, so the program must round such a value and the
exact identity fails on the real arithmetic.  The representation choice
itself is examined through the table schema (accountTableColumns below).
-/

namespace GoBank

/-- Monetary values (Go float64 in the source, embedded exactly). -/
abbrev Money := ℚ

/-- The persisted account table restricted to what TransferFunds touches:
a map from iban to balance (none when no row has that iban). -/
abbrev Bank := String → Option Money

/-- Column names and SQL types of the CREATE TABLE statement in
createAccountTable (storage.go). -/
def accountTableColumns : List (String × String) :=
  [("id", "serial primary key"),
   ("first_name", "varchar(70)"),
   ("last_name", "varchar(70)"),
   ("password", "varchar(100)"),
   ("iban", "varchar(70)"),
   ("balance", "float"),
   ("created_at", "timestamp")]

/-- Errors TransferFunds can return on its two explicit failure paths:
lockAccount finding no row (sql.ErrNoRows, the AccountNotFound case of
the spec taxonomy) and the amount check (message Balance not sufficient,
the InsufficientFunds case of the spec taxonomy). -/
inductive TransferError where
  | accountNotFound
  | balanceNotSufficient
deriving DecidableEq, Repr

/-- lockAccount (storage.go): SELECT iban, balance FROM account WHERE
iban = $1 FOR UPDATE — returns the balance of the row, or fails with
sql.ErrNoRows when no row matches. -/
def lockAccount (b : Bank) (iban : String) : Option Money :=
  b iban

/-- The updateBalance closure inside TransferFunds (storage.go):
UPDATE account SET balance = $2 WHERE iban = $1 — rows matching the iban
get the new balance; when no row matches, nothing changes. -/
def setBalance (b : Bank) (iban : String) (newBalance : Money) : Bank :=
  fun j => if j = iban then (b j).map (fun _ => newBalance) else b j

/-- TransferFunds (storage.go), the body of the database transaction:
lock the source row (error if missing), reject amount > source balance,
write the debited source balance, lock the destination row in the same
transaction (error if missing; the read sees the debit when the two
ibans coincide), write the credited destination balance, commit. -/
def transferFunds (b : Bank) (fromIban toIban : String) (amount : Money) :
    Except TransferError Bank :=
  match lockAccount b fromIban with
  | none => Except.error TransferError.accountNotFound
  | some fromBalance =>
    if amount > fromBalance then
      Except.error TransferError.balanceNotSufficient
    else
      let b1 := setBalance b fromIban (fromBalance - amount)
      match lockAccount b1 toIban with
      | none => Except.error TransferError.accountNotFound
      | some toBalance => Except.ok (setBalance b1 toIban (toBalance + amount))

/-- The state visible after TransferFunds returns: the committed bank on
success, the original bank on any error (the deferred tx.Rollback
discards every write of the failed transaction). -/
def applyTransfer (b : Bank) (fromIban toIban : String) (amount : Money) : Bank :=
  match transferFunds b fromIban toIban amount with
  | Except.ok b2 => b2
  | Except.error _ => b

/-- The error TransferFunds reports, none on success (decidable view of
the result). -/
def transferResult (b : Bank) (fromIban toIban : String) (amount : Money) :
    Option TransferError :=
  match transferFunds b fromIban toIban amount with
  | Except.ok _ => none
  | Except.error e => some e

/-- The ibans on which TransferFunds invokes lockAccount, in invocation
order: always the source first, then — when the source resolved and the
amount check passed — the destination. -/
def lockTrace (b : Bank) (fromIban toIban : String) (amount : Money) :
    List String :=
  match lockAccount b fromIban with
  | none => [fromIban]
  | some fromBalance =>
    if amount > fromBalance then [fromIban]
    else [fromIban, toIban]

/-- Claims (types.go): the JWT token claims carried by an authenticated
request; the iban identifies the authenticated caller. -/
structure Claims where
  iban : String
deriving DecidableEq, Repr

/-- TransferRequest (types.go): the client-supplied body of a transfer
request — destination iban and amount only, no source field. -/
structure TransferRequest where
  toAccountIban : String
  amount : Money
deriving DecidableEq, Repr

/-- The argument triple handleTransfer (api.go) passes to
store.TransferFunds: source iban from the token claims, destination iban
and amount from the request body. -/
def transferCall (claims : Claims) (req : TransferRequest) :
    String × String × Money :=
  (claims.iban, req.toAccountIban, req.amount)

/-- handleTransfer (api.go): reads the claims from the request context,
decodes the body, and invokes TransferFunds on the triple above. -/
def handleTransfer (b : Bank) (claims : Claims) (req : TransferRequest) :
    Except TransferError Bank :=
  transferFunds b (transferCall claims req).1
    (transferCall claims req).2.1 (transferCall claims req).2.2

/-! Concrete ibans and banks used as test fixtures. -/

def ibanA : String := "A"

def ibanB : String := "B"

def ibanC : String := "C"

/-- A bank with two accounts: A holds 100, B holds 50. -/
def bankAB : Bank :=
  fun j => if j = ibanA then some 100 else if j = ibanB then some 50 else none

/-- A bank with the single account A holding 10. -/
def bankA10 : Bank :=
  fun j => if j = ibanA then some 10 else none

/-- A bank with A holding 0 and B holding 10. -/
def bankLow : Bank :=
  fun j => if j = ibanA then some 0 else if j = ibanB then some 10 else none

/-- A bank with A holding 2 ^ 53 and B holding 0; both balances are
exactly representable float64 values. -/
def bankPow53 : Bank :=
  fun j => if j = ibanA then some (2 ^ 53) else if j = ibanB then some 0 else none

/-- A bank with the single account A holding 2 ^ 53 - 1, an exactly
representable float64 value. -/
def bankBig : Bank :=
  fun j => if j = ibanA then some (2 ^ 53 - 1) else none

/-- The name of the balance column in createAccountTable. -/
def balanceColumnName : String := "balance"

/-- The SQL type the balance column is declared with in createAccountTable. -/
def sqlFloatType : String := "float"

/-! General lemmas about the embedded operations. -/

theorem setBalance_self (b : Bank) (i : String) (v : Money) :
    setBalance b i v i = (b i).map (fun _ => v) := by
  simp [setBalance]

theorem setBalance_other (b : Bank) (i j : String) (v : Money) (h : j ≠ i) :
    setBalance b i v j = b j := by
  simp [setBalance, h]

theorem setBalance_none (b : Bank) (i j : String) (v : Money) (h : b j = none) :
    setBalance b i v j = none := by
  simp [setBalance, h]

/-- When the two ibans differ, both rows resolve and the amount does not
exceed the source balance, TransferFunds reaches commit with the debited
source row and the credited destination row. -/
theorem transferFunds_commit (b : Bank) (f t : String) (a s d : Money)
    (hft : f ≠ t) (hf : b f = some s) (ht : b t = some d) (hle : a ≤ s) :
    transferFunds b f t a =
      Except.ok (setBalance (setBalance b f (s - a)) t (d + a)) := by
  simp only [transferFunds, lockAccount, hf]
  rw [if_neg (not_lt.mpr hle)]
  rw [setBalance_other b f t (s - a) (Ne.symm hft), ht]

/-- When source and destination coincide, the row resolves and the
amount does not exceed the balance, TransferFunds reaches commit; the
second lockAccount reads the already debited balance, so the credit is
applied on top of the debit. -/
theorem transferFunds_self_commit (b : Bank) (i : String) (a s : Money)
    (hf : b i = some s) (hle : a ≤ s) :
    transferFunds b i i a =
      Except.ok (setBalance (setBalance b i (s - a)) i (s - a + a)) := by
  simp only [transferFunds, lockAccount, hf]
  rw [if_neg (not_lt.mpr hle)]
  rw [setBalance_self b i (s - a), hf]
  rfl

/-- When the source row resolves but the amount exceeds its balance,
TransferFunds stops at the sufficiency check. -/
theorem transferFunds_insufficient_eq (b : Bank) (f t : String) (a s : Money)
    (hf : b f = some s) (hlt : s < a) :
    transferFunds b f t a = Except.error TransferError.balanceNotSufficient := by
  simp only [transferFunds, lockAccount, hf]
  rw [if_pos hlt]

/-- TransferFunds reports the missing-row error when the source iban
does not resolve, or when the source resolves, the amount check passes
and the destination iban does not resolve. -/
theorem transferFunds_notFound_eq (b : Bank) (f t : String) (a s : Money)
    (h : b f = none ∨ (b f = some s ∧ a ≤ s ∧ b t = none)) :
    transferFunds b f t a = Except.error TransferError.accountNotFound := by
  rcases h with h | ⟨hf, hle, ht⟩
  · simp only [transferFunds, lockAccount, h]
  · simp only [transferFunds, lockAccount, hf]
    rw [if_neg (not_lt.mpr hle)]
    rw [setBalance_none b f t (s - a) ht]

/-- Any error return leaves the committed state as it was: the deferred
tx.Rollback discards the writes of the failed transaction. -/
theorem applyTransfer_of_error (b : Bank) (f t : String) (a : Money)
    (e : TransferError) (h : transferFunds b f t a = Except.error e) :
    applyTransfer b f t a = b := by
  simp [applyTransfer, h]

/-! Claim theorems. -/

/-- Claim C1 (code bug): the exact-update and conservation identities
fail on the float64 arithmetic of the source.  At source balance 2 ^ 53,
destination balance 0 and amount 1/2 — a valid transfer with
0 < amount and amount below the source balance — the code commits,
writing the computed difference 2 ^ 53 - 1/2 to the source row and the
computed sum 0 + 1/2 to the destination row.  The difference is not an
integer, while every binary64 value of that magnitude is an integer, so
the float64 subtraction of the program must round it (half-to-even,
giving back 2 ^ 53): the real program leaves the source unchanged and
grows the sum of the two balances by 1/2, against the claimed identity
for the new source balance and against conservation. -/
theorem transfer_rounding_boundary :
    ∃ b2, transferFunds bankPow53 ibanA ibanB (1/2) = Except.ok b2 ∧
      b2 ibanA = some (2 ^ 53 - 1/2) ∧ b2 ibanB = some (0 + 1/2) ∧
      ¬ ∃ n : ℤ, ((2 ^ 53 : ℚ) - 1/2) = (n : ℚ) := by
  have h := transferFunds_commit bankPow53 ibanA ibanB (1/2) (2 ^ 53) 0
    (by decide) (by simp [bankPow53, ibanA]) (by simp [bankPow53, ibanA, ibanB])
    (by norm_num)
  refine ⟨_, h, ?_, ?_, ?_⟩
  · rw [setBalance_other _ ibanB ibanA _ (by decide),
      setBalance_self bankPow53 ibanA _]
    simp [bankPow53, ibanA]
  · rw [setBalance_self _ ibanB _,
      setBalance_other bankPow53 ibanA ibanB _ (by decide)]
    simp [bankPow53, ibanA, ibanB]
  · rintro ⟨n, hn⟩
    norm_num at hn
    have h2 : ((2 * n : ℤ) : ℚ) = ((18014398509481983 : ℤ) : ℚ) := by
      push_cast
      linarith
    have hz : (2 * n : ℤ) = 18014398509481983 := by exact_mod_cast h2
    omega

/-- Claim C2: for every pair of existing accounts and an amount strictly
greater than the source balance, TransferFunds fails with the
insufficient-funds error and the committed state is the original bank:
no partial write is observable. -/
theorem transfer_insufficient_fails_unchanged (b : Bank) (f t : String)
    (a s d : Money) (hf : b f = some s) (ht : b t = some d) (hlt : s < a) :
    transferFunds b f t a = Except.error TransferError.balanceNotSufficient ∧
    applyTransfer b f t a = b := by
  have h := transferFunds_insufficient_eq b f t a s hf hlt
  exact ⟨h, applyTransfer_of_error b f t a TransferError.balanceNotSufficient h⟩

/-- Witness for C2: A holds 100, B holds 50; transferring 200 from A to
B fails with the insufficient-funds error and the bank is unchanged. -/
theorem transfer_insufficient_fails_unchanged_witness :
    transferFunds bankAB ibanA ibanB 200 =
      Except.error TransferError.balanceNotSufficient ∧
    applyTransfer bankAB ibanA ibanB 200 = bankAB :=
  transfer_insufficient_fails_unchanged bankAB ibanA ibanB 200 100 50
    (by decide) (by decide) (by decide)

/-- Claim C3 (code bug): the lock-acquisition order is NOT independent
of transfer direction — TransferFunds always invokes lockAccount on the
caller-supplied source iban first and the destination iban second, so a
transfer from A to B locks in the order A, B while a transfer from B to
A locks in the order B, A. -/
theorem lockTrace_direction_dependent :
    lockTrace bankAB ibanA ibanB 30 = [ibanA, ibanB] ∧
    lockTrace bankAB ibanB ibanA 30 = [ibanB, ibanA] ∧
    lockTrace bankAB ibanA ibanB 30 ≠ lockTrace bankAB ibanB ibanA 30 := by
  refine ⟨by decide, by decide, by decide⟩

/-- Claim C4 (code bug): TransferFunds performs no amount validation.
With A at 100 and B at 50, a transfer of -50 from A to B commits
successfully (no InvalidAmount error exists in the code), crediting the
source to 150 and draining the destination to 0. -/
theorem transfer_negative_amount_commits :
    transferResult bankAB ibanA ibanB (-50) = none ∧
    applyTransfer bankAB ibanA ibanB (-50) ibanA = some 150 ∧
    applyTransfer bankAB ibanA ibanB (-50) ibanB = some 0 := by
  have h := transferFunds_commit bankAB ibanA ibanB (-50) 100 50
    (by decide) (by decide) (by decide) (by decide)
  refine ⟨by simp [transferResult, h], ?_, ?_⟩
  · simp only [applyTransfer, h]
    simp [setBalance, bankAB, ibanA, ibanB]
    norm_num
  · simp only [applyTransfer, h]
    simp [setBalance, bankAB, ibanA, ibanB]

/-- Claim C5 counterexample: a self-transfer does not fail — with A at
100, TransferFunds from A to A of 30 returns success and leaves the
balance of A at 100; there is no InvalidTransfer rejection in the
code. -/
theorem self_transfer_commits_ce :
    transferResult bankAB ibanA ibanA 30 = none ∧
    applyTransfer bankAB ibanA ibanA 30 ibanA = some 100 := by
  have h := transferFunds_self_commit bankAB ibanA 30 100 (by decide) (by decide)
  refine ⟨by simp [transferResult, h], ?_⟩
  simp only [applyTransfer, h]
  simp [setBalance, bankAB, ibanA]

/-- Claim C5 as amended: a self-transfer whose amount does not exceed
the balance of the account is not rejected — TransferFunds contains no
InvalidTransfer check; it commits successfully and changes the balance
of no other account.  The final balance of the account itself is the
program's float64 result of crediting the amount onto the debited
balance read back inside the transaction; that cancels only up to
float64 rounding, so it is not claimed here (see the C10 record). -/
theorem self_transfer_commits (b : Bank) (i : String) (a s : Money)
    (hf : b i = some s) (hle : a ≤ s) :
    ∃ b2, transferFunds b i i a = Except.ok b2 ∧ ∀ j, j ≠ i → b2 j = b j := by
  refine ⟨_, transferFunds_self_commit b i a s hf hle, ?_⟩
  intro j hji
  rw [setBalance_other _ i j (s - a + a) hji, setBalance_other b i j (s - a) hji]

/-- Witness for the amended C5: with A at 100 and B at 50, the
self-transfer of 30 on A commits and every other account is
unchanged. -/
theorem self_transfer_commits_witness :
    ∃ b2, transferFunds bankAB ibanA ibanA 30 = Except.ok b2 ∧
      ∀ j, j ≠ ibanA → b2 j = bankAB j :=
  self_transfer_commits bankAB ibanA 30 100 (by decide) (by decide)

/-- Claim C6 (code bug): the non-negativity invariant is violated — with
A at 0 and B at 10, TransferFunds from A to B of -50 commits and leaves
B at -40, a negative balance. -/
theorem transfer_negative_balance :
    transferResult bankLow ibanA ibanB (-50) = none ∧
    applyTransfer bankLow ibanA ibanB (-50) ibanB = some (-40) ∧
    (-40 : Money) < 0 := by
  have h := transferFunds_commit bankLow ibanA ibanB (-50) 0 10
    (by decide) (by decide) (by decide) (by decide)
  refine ⟨by simp [transferResult, h], ?_, by norm_num⟩
  simp only [applyTransfer, h]
  simp [setBalance, bankLow, ibanA, ibanB]
  norm_num

/-- Claim C7 counterexample: a transfer to a missing destination does
not always fail with the missing-row error — with only A at 10 in the
bank, transferring 50 from A to the nonexistent B fails with the
insufficient-funds error instead, because the sufficiency check runs
before the destination row is locked. -/
theorem missing_dest_insufficient_ce :
    lockAccount bankA10 ibanB = none ∧
    transferResult bankA10 ibanA ibanB 50 =
      some TransferError.balanceNotSufficient := by
  refine ⟨by decide, by decide⟩

/-- Claim C7 as amended: if the source iban does not resolve, or the
source resolves with amount not exceeding its balance and the
destination iban does not resolve, TransferFunds fails with the
missing-row error and the committed state is the original bank — the
debit written for the source is rolled back. -/
theorem transfer_notFound_rolls_back (b : Bank) (f t : String) (a s : Money)
    (h : b f = none ∨ (b f = some s ∧ a ≤ s ∧ b t = none)) :
    transferFunds b f t a = Except.error TransferError.accountNotFound ∧
    applyTransfer b f t a = b := by
  have he := transferFunds_notFound_eq b f t a s h
  exact ⟨he, applyTransfer_of_error b f t a TransferError.accountNotFound he⟩

/-- Witness for the amended C7, destination side: only A (at 10) exists;
transferring 5 from A to the nonexistent B fails with the missing-row
error and the bank is unchanged. -/
theorem transfer_notFound_rolls_back_witness :
    transferFunds bankA10 ibanA ibanB 5 =
      Except.error TransferError.accountNotFound ∧
    applyTransfer bankA10 ibanA ibanB 5 = bankA10 :=
  transfer_notFound_rolls_back bankA10 ibanA ibanB 5 10
    (Or.inr ⟨by decide, by decide, by decide⟩)

/-- Claim C8: the source iban debited by the engine is the one taken
from the authenticated token claims; the client-supplied request body
carries only a destination iban and an amount, so for a fixed set of
claims every request body yields the same debited source account, and
handleTransfer invokes the engine on exactly that triple. -/
theorem handleTransfer_source_from_claims (c : Claims)
    (r1 r2 : TransferRequest) :
    (transferCall c r1).1 = c.iban ∧
    (transferCall c r1).1 = (transferCall c r2).1 ∧
    ∀ b, handleTransfer b c r1 =
      transferFunds b c.iban r1.toAccountIban r1.amount :=
  ⟨rfl, rfl, fun _ => rfl⟩

/-- Claim C9 (code bug): the balance column of the account table is
declared with SQL type float by createAccountTable, not as an integer
minor-units column. -/
theorem balance_column_declared_float :
    List.lookup balanceColumnName accountTableColumns = some sqlFloatType := by
  decide

/-- Claim C10 (code bug): the claimed net no-op of a self-transfer holds
only in exact arithmetic; the float64 arithmetic of the source can
change the balance.  At balance 2 ^ 53 - 1 and amount 1/2 the
self-transfer commits, and the debit writes the computed difference
2 ^ 53 - 1 - 1/2, which is not an integer while every binary64 value of
that magnitude is an integer: the float64 subtraction of the program
must round it (half-to-even, giving 2 ^ 53 - 2), the credit then rounds
the same way, and the account ends at 2 ^ 53 - 2, a changed balance. -/
theorem self_transfer_rounding_boundary :
    ∃ b2, transferFunds bankBig ibanA ibanA (1/2) = Except.ok b2 ∧
      ¬ ∃ n : ℤ, ((2 ^ 53 - 1 : ℚ) - 1/2) = (n : ℚ) := by
  refine ⟨_, transferFunds_self_commit bankBig ibanA (1/2) (2 ^ 53 - 1)
    (by simp [bankBig, ibanA]) (by norm_num), ?_⟩
  rintro ⟨n, hn⟩
  norm_num at hn
  have h2 : ((2 * n : ℤ) : ℚ) = ((18014398509481981 : ℤ) : ℚ) := by
    push_cast
    linarith
  have hz : (2 * n : ℤ) = 18014398509481981 := by exact_mod_cast h2
  omega

end GoBank
